import Mathlib

set_option maxRecDepth 1000000

/-!
Verification development for pypdfcrop (src/pypdfcrop.py), a tool that crops
PDF files by appending an incremental update instead of rewriting the file.

The Python source is shallowly embedded below.  Byte streams and strings are
modelled as `List Char`, Python exceptions as an explicit error type threaded
through `Except`, and the append-mode output file as a record holding the
bytes written so far.  Each definition is annotated with the source lines it
translates.
-/

/-- Python exceptions that the program can raise, distinguished the way an
observer of the process would distinguish them (by type and message). -/
inductive PyErr
  /-- `IOError` raised by `file.seek(-1024, 2)` on a stream shorter than 1024
  bytes (CPython 2 file objects reject a negative resulting offset). -/
  | ioError
  /-- `IndexError` from indexing a too-short list, e.g. `lines[-3]`. -/
  | indexError
  /-- `ValueError` raised by `int()` on a non-numeric string. -/
  | valueError
  /-- `ValueError("Invalid PDF, I think")` from `findLastXrefStart` line 42. -/
  | malformedDocument
  /-- `EnvironmentError("'gs' call failed.")`, lines 78 and 87. -/
  | gsCallFailed
deriving DecidableEq

/-- Messages printed by `crop` that the modelled claims observe. -/
inductive Msg
  /-- Lines 64-65: "Got an error when decrypting PDF using given password." -/
  | decryptGivenPasswordError
  /-- Line 68: "Got an error when opening PDF. Try --password." -/
  | openErrorTryPassword
  /-- Lines 85-86: "No bounding boxes detected. Dumping GS output." followed
  by the raw diagnostic stream. -/
  | noBBoxDump (raw : List Char)
deriving DecidableEq

/-- True for the characters `str.split()` treats as whitespace in Python 2. -/
def isPySpace (c : Char) : Bool :=
  c == ' ' || c == '\t' || c == '\n' || c == '\r' || c == '\x0b' || c == '\x0c'

/-- Accumulator-passing worker for `pySplit`; `acc` holds the current token
reversed. -/
def pySplitAux : List Char → List Char → List (List Char)
  | [], acc => if acc.isEmpty then [] else [acc.reverse]
  | c :: cs, acc =>
    if isPySpace c then
      if acc.isEmpty then pySplitAux cs [] else acc.reverse :: pySplitAux cs []
    else pySplitAux cs (c :: acc)

/-- Python 2 `str.split()` with no argument: split on runs of whitespace and
drop empty tokens. -/
def pySplit (s : List Char) : List (List Char) :=
  pySplitAux s []

/-- Worker for `splitNl`. -/
def splitNlAux : List Char → List Char → List (List Char)
  | [], acc => [acc.reverse]
  | c :: cs, acc =>
    if c == '\n' then acc.reverse :: splitNlAux cs [] else splitNlAux cs (c :: acc)

/-- Python `str.split('\n')`: split on every newline, keeping empty pieces. -/
def splitNl (s : List Char) : List (List Char) :=
  splitNlAux s []

/-- Value of an unsigned decimal digit string, `none` if empty or non-digit. -/
def digitsVal? (s : List Char) : Option Nat :=
  if s.isEmpty then none
  else if s.all Char.isDigit then
    some (s.foldl (fun a c => a * 10 + (c.toNat - 48)) 0)
  else none

/-- Python 2 `int(token)` for a whitespace-free token: an optional sign
followed by at least one decimal digit; anything else raises `ValueError`
(modelled as `none`). -/
def pyInt? (s : List Char) : Option Int :=
  match s with
  | '+' :: rest => (digitsVal? rest).map Int.ofNat
  | '-' :: rest => (digitsVal? rest).map (fun n => -(n : Int))
  | _ => (digitsVal? s).map Int.ofNat

/-- Python negative indexing `l[-k]`: defined exactly when `k ≤ len(l)`,
returning the element at position `len(l) - k`; otherwise `IndexError`
(modelled as `none`). -/
def negIdx {α : Type} (l : List α) (k : Nat) : Option α :=
  if k ≤ l.length then l.get? (l.length - k) else none

/-- `IndirectReference`: object id and generation (pyPdf `IndirectObject`). -/
structure XRef where
  idnum : Nat
  generation : Nat
deriving DecidableEq

/-- A margin quad `(left, bottom, right, top)` as produced by
`expand_margins` (src lines 177-185): a list of four integers. -/
structure MarginQuad where
  left : Int
  bottom : Int
  right : Int
  top : Int
deriving DecidableEq

/-- Values stored in the trailer dictionary; only `/Prev` (a number) is
inspected by the program, every other value is opaque. -/
inductive PdfObj
  | num (n : Int)
  | other (tag : Nat)
deriving DecidableEq

/-- The three mutually exclusive bounding-box inputs (src lines 70-89):
a fixed rectangle from `--bbox`, the text of a `--bbox-file`, or the live
GhostScript run's exit code and captured stderr. -/
inductive BBoxMode
  | fixed (bbox : List Int)
  | file (txt : List Char)
  | live (returncode : Int) (stderrTxt : List Char)

/-- The resolved rectangle sequence: `repeat(opts.bbox)` (an infinite
iterator, line 89) or the finite parsed list (line 82). -/
inductive BBoxSrc
  | repeating (r : List Int)
  | finite (l : List (List Int))

/-- A file opened in append mode (`open(outfilename, 'ab')`, line 118):
every write lands at the end, `tell` reports the current length. -/
structure OutFile where
  contents : List Char

/-- `file.write` in append mode. -/
def OutFile.write (f : OutFile) (s : List Char) : OutFile :=
  ⟨f.contents ++ s⟩

/-- `file.tell` in append mode. -/
def OutFile.tell (f : OutFile) : Nat :=
  f.contents.length

/-- src lines 37-43.  `findLastXrefStart(stream)`: `stream.seek(-1024, 2)`
raises `IOError` when the stream is shorter than 1024 bytes; otherwise the
last 1024 bytes are read and split on whitespace, `lines[-3]` raises
`IndexError` when there are fewer than three tokens, the `startswith`
check failing raises `ValueError("Invalid PDF, I think")`, and the result
is `int(lines[-2])`. -/
def findLastXrefStart (s : List Char) : Except PyErr Int :=
  if s.length < 1024 then Except.error PyErr.ioError
  else
    let toks := pySplit (s.drop (s.length - 1024))
    match negIdx toks 3 with
    | none => Except.error PyErr.indexError
    | some t3 =>
      if "startxref".data.isPrefixOf t3 then
        match negIdx toks 2 with
        | none => Except.error PyErr.indexError
        | some t2 =>
          match pyInt? t2 with
          | some n => Except.ok n
          | none => Except.error PyErr.valueError
      else Except.error PyErr.malformedDocument

/-- Reference locator following the claim's words (claim C3): read the
trailing chunk starting at `max(0, length-1024)`, split on whitespace,
return the second-to-last token parsed as an integer when the third-to-last
token equals `startxref`, and fail with `MalformedDocument` when that token
is absent (including a stream too short to have three tokens). -/
def findLastXrefStartClaim (s : List Char) : Except PyErr Int :=
  match (pySplit (s.drop (s.length - 1024))).reverse with
  | _ :: tPen :: tAnte :: _ =>
    if tAnte = "startxref".data then
      match pyInt? tPen with
      | some n => Except.ok n
      | none => Except.error PyErr.valueError
    else Except.error PyErr.malformedDocument
  | _ => Except.error PyErr.malformedDocument

/-- Reference locator following the amended claim: a stream shorter than
1024 bytes fails at the seek with an I/O error; otherwise the final 1024
bytes are split on whitespace, fewer than three tokens is an indexing
error, and when the third-to-last token starts with `startxref` the
second-to-last token is parsed as an integer (a non-integer token being a
`ValueError`); otherwise the failure is `MalformedDocument`. -/
def findLastXrefStartAmended (s : List Char) : Except PyErr Int :=
  if s.length < 1024 then Except.error PyErr.ioError
  else
    match (pySplit (s.drop (s.length - 1024))).reverse with
    | _ :: tPen :: tAnte :: _ =>
      if "startxref".data.isPrefixOf tAnte then
        match pyInt? tPen with
        | some n => Except.ok n
        | none => Except.error PyErr.valueError
      else Except.error PyErr.malformedDocument
    | _ => Except.error PyErr.indexError

/-- src lines 49-68, the access-negotiation block of `crop`.  The three
booleans say whether `getDocumentInfo` succeeds directly, after
`decrypt('')`, and after `decrypt(opts.password)`.  The block only prints:
every handler falls through, so it yields the list of printed messages and
control always continues into the rest of `crop`. -/
def authMsgs (direct emptyPw given : Bool) (pw : Option (List Char)) : List Msg :=
  if direct then []
  else if emptyPw then []
  else
    match pw with
    | some _ => if given then [] else [Msg.decryptGivenPasswordError]
    | none => [Msg.openErrorTryPassword]

/-- src line 82: one `map(int, s.split()[1:])`, propagating `ValueError`. -/
def pyMapInt : List (List Char) → Except PyErr (List Int)
  | [] => Except.ok []
  | t :: ts =>
    match pyInt? t with
    | none => Except.error PyErr.valueError
    | some v =>
      match pyMapInt ts with
      | Except.error e => Except.error e
      | Except.ok vs => Except.ok (v :: vs)

/-- src lines 82-83, the line filter: lines of the diagnostic text that
start with the marker `%%BoundingBox:`. -/
def bboxLineFilter (txt : List Char) : List (List Char) :=
  (splitNl txt).filter (fun ln => "%%BoundingBox:".data.isPrefixOf ln)

/-- src lines 82-83, the list comprehension body over the filtered lines. -/
def parseBBoxList : List (List Char) → Except PyErr (List (List Int))
  | [] => Except.ok []
  | ln :: lns =>
    match pyMapInt ((pySplit ln).drop 1) with
    | Except.error e => Except.error e
    | Except.ok r =>
      match parseBBoxList lns with
      | Except.error e => Except.error e
      | Except.ok rs => Except.ok (r :: rs)

/-- src lines 82-83: `bboxes = [map(int, s.split()[1:]) for s in
stderr.split('\n') if s.startswith(r'%%BoundingBox:')]`. -/
def parseBBoxLines (txt : List Char) : Except PyErr (List (List Int)) :=
  parseBBoxList (bboxLineFilter txt)

/-- src lines 82-87, shared by the file and live modes: parse the
diagnostic text; when no bounding boxes result, print the dump of the raw
output (lines 85-86) and raise `EnvironmentError` (line 87). -/
def bboxesFromText (txt : List Char) : List Msg × Except PyErr BBoxSrc :=
  match parseBBoxLines txt with
  | Except.error e => ([], Except.error e)
  | Except.ok [] => ([Msg.noBBoxDump txt], Except.error PyErr.gsCallFailed)
  | Except.ok bs => ([], Except.ok (BBoxSrc.finite bs))

/-- src lines 70-89, the whole bounding-box stage of `crop`: fixed mode
yields the repeating rectangle (line 89); file mode parses the file's text;
live mode first raises `EnvironmentError` on a non-zero GhostScript exit
status (lines 77-78) and then parses the captured stderr. -/
def runBBoxStage : BBoxMode → List Msg × Except PyErr BBoxSrc
  | BBoxMode.fixed r => ([], Except.ok (BBoxSrc.repeating r))
  | BBoxMode.file txt => bboxesFromText txt
  | BBoxMode.live rc txt =>
    if rc ≠ 0 then ([], Except.error PyErr.gsCallFailed) else bboxesFromText txt

/-- The rectangle sequence as the iterator `zip` consumes it: position `i`
of `repeat(bbox)` is always the rectangle, position `i` of a list iterator
is its `i`-th element when present. -/
def streamOf : BBoxSrc → Nat → Option (List Int)
  | BBoxSrc.repeating r, _ => some r
  | BBoxSrc.finite l, i => l.get? i

/-- src lines 99-103: building the `/CropBox` array.  Python evaluates
`bbox[0] - margins[0]` first, so any rectangle with fewer than four
components raises `IndexError`. -/
def mkCropBox (bbox : List Int) (m : MarginQuad) : Except PyErr (List Int) :=
  match bbox with
  | a :: b :: c :: d :: _ =>
    Except.ok [a - m.left, b - m.bottom, c + m.right, d + m.top]
  | _ => Except.error PyErr.indexError

/-- src lines 93-104, the page loop: `for idx, (page, bbox) in
enumerate(zip(pdfrdr.pages, bboxes))`.  `zip` stops as soon as either
sequence is exhausted; `idx % 2` selects the margins (line 98: odd pages
use `opts.margins`, even ones `opts.altmargins`); `ser` stands for the
document model's serialization of the mutated page object. -/
def cropLoop (ser : XRef → List Int → List Char) (m am : MarginQuad) :
    Nat → List XRef → (Nat → Option (List Int)) → Except PyErr (List (XRef × List Char))
  | _, [], _ => Except.ok []
  | idx, p :: ps, s =>
    match s idx with
    | none => Except.ok []
    | some bbox =>
      match mkCropBox bbox (if idx % 2 = 1 then m else am) with
      | Except.error e => Except.error e
      | Except.ok cb =>
        match cropLoop ser m am (idx + 1) ps s with
        | Except.error e => Except.error e
        | Except.ok rest => Except.ok ((p, ser p cb) :: rest)

/-- The page loop started at index 0 on a rectangle source. -/
def cropPagesLoop (pages : List XRef) (src : BBoxSrc) (m am : MarginQuad)
    (ser : XRef → List Int → List Char) : Except PyErr (List (XRef × List Char)) :=
  cropLoop ser m am 0 pages (streamOf src)

/-- src line 98 combined with lines 99-103 as a pure function of one page:
select `opts.margins` for an odd 0-based index, `opts.altmargins` for an
even one, and build the crop box. -/
def cropBoxFor (bbox : List Int) (idx : Nat) (m am : MarginQuad) : Except PyErr (List Int) :=
  mkCropBox bbox (if idx % 2 = 1 then m else am)

/-- src lines 188-191: `opts.altmargins` defaults to `opts.margins` when
`--even-margin` is not supplied. -/
def resolveAltMargins (m : MarginQuad) (am : Option MarginQuad) : MarginQuad :=
  am.getD m

/-- Python `dict.__setitem__` on an association list with unique keys:
replace the value of an existing key in place, else append the binding. -/
def dictSet (k : String) (v : PdfObj) : List (String × PdfObj) → List (String × PdfObj)
  | [] => [(k, v)]
  | (k', v') :: rest =>
    if k' = k then (k, v) :: rest else (k', v') :: dictSet k v rest

/-- Fuel-driven worker for `natDecimal`; pushes least-significant digits
onto `acc`.  Fuel `n` suffices for the number `n` itself. -/
def natDecimalAux : Nat → Nat → List Char → List Char
  | 0, _, acc => acc
  | fuel + 1, n, acc =>
    if n = 0 then acc
    else natDecimalAux fuel (n / 10) (Char.ofNat (48 + n % 10) :: acc)

/-- Python `'%d' % n` for a non-negative `n`: decimal digits, no padding. -/
def natDecimal (n : Nat) : List Char :=
  if n = 0 then ['0'] else natDecimalAux n n []

/-- Zero-padding on the left to a minimum width, as `'%0*d'` does: numbers
wider than the field keep all their digits. -/
def leftPad (c : Char) (w : Nat) (s : List Char) : List Char :=
  List.replicate (w - s.length) c ++ s

/-- src lines 139-140: one xref entry line,
`('%010d %05d n \n' % (offset, generation))[:20]`. -/
def xrefLine (offset generation : Nat) : List Char :=
  (leftPad '0' 10 (natDecimal offset) ++
    (' ' :: leftPad '0' 5 (natDecimal generation)) ++ " n \n".data).take 20

/-- Stable insertion used by `sortByKey`: an element goes after every
element whose key is not larger, matching Python's stable `sorted`. -/
def insortBy {α : Type} (key : α → Nat) (x : α) : List α → List α
  | [] => [x]
  | y :: ys => if key x < key y then x :: y :: ys else y :: insortBy key x ys

/-- Python `sorted(l, key=key)`: stable sort by a numeric key
(src lines 120 and 130 use `key = lambda ref: ref.idnum`). -/
def sortByKey {α : Type} (key : α → Nat) (l : List α) : List α :=
  l.foldr (insortBy key) []

/-- src lines 131-134, the body of the grouping loop: start a new
subsection when there is none yet or when the last subsection's last entry
does not have the SAME id as the incoming reference; otherwise extend the
last subsection.  (Entries carry the offset recorded for them.) -/
def subStep (subs : List (List (XRef × Nat))) (r : XRef × Nat) : List (List (XRef × Nat)) :=
  match subs.getLast? with
  | none => subs ++ [[r]]
  | some last =>
    match last.getLast? with
    | none => subs ++ [[r]]
    | some x =>
      if x.1.idnum ≠ r.1.idnum then subs ++ [[r]] else subs.dropLast ++ [last ++ [r]]

/-- src lines 129-134: fold the xref entries, sorted ascending by id, with
`subStep`. -/
def codeSubsections (offs : List (XRef × Nat)) : List (List (XRef × Nat)) :=
  (sortByKey (fun ro => ro.1.idnum) offs).foldl subStep []

/-- Reference grouping following the claim's words (claim C1): sort the
touched ids ascending and fold them into runs, a new id extending the
current run exactly when it is one greater than the run's last id. -/
def specSubsections (ids : List Nat) : List (List Nat) :=
  (sortByKey id ids).foldl
    (fun subs i =>
      match subs.getLast? with
      | none => subs ++ [[i]]
      | some last =>
        match last.getLast? with
        | none => subs ++ [[i]]
        | some x =>
          if x + 1 = i then subs.dropLast ++ [last ++ [i]] else subs ++ [[i]])
    []

/-- src line 122: `'%d %d obj\n' % (ref.idnum, ref.generation)`. -/
def objHeader (r : XRef) : List Char :=
  natDecimal r.idnum ++ (' ' :: natDecimal r.generation) ++ " obj\n".data

/-- src lines 120-124: write each object (header, serialized body,
`endobj`), recording the offset at which each header began. -/
def writeObjects : OutFile → List (XRef × List Char) → OutFile × List (XRef × Nat)
  | f, [] => (f, [])
  | f, rb :: rest =>
    let off := f.tell
    let f1 := f.write (objHeader rb.1)
    let f2 := f1.write rb.2
    let f3 := f2.write "\nendobj\n".data
    let res := writeObjects f3 rest
    (res.1, (rb.1, off) :: res.2)

/-- src lines 136-140: one subsection, `'%d %d \n'` header then the fixed
20-byte entry lines. -/
def writeSubsection (f : OutFile) (sub : List (XRef × Nat)) : OutFile :=
  let f1 := f.write
    (natDecimal ((sub.head?.map (fun ro => ro.1.idnum)).getD 0) ++
      (' ' :: natDecimal sub.length) ++ " \n".data)
  sub.foldl (fun g ro => g.write (xrefLine ro.2 ro.1.generation)) f1

/-- src lines 118-144, the whole append phase of `crop`: objects, the
`xref ` keyword, the grouped subsections, the trailer bytes and the footer
with the new `startxref` offset.  The writer starts on a file that already
holds an exact copy of the input (`'ab'` mode, after `shutil.copyfile`
when `--outfile` is given). -/
def emitRevision (orig : List Char) (bodies : List (XRef × List Char))
    (trailerBytes : List Char) : List Char :=
  let res := writeObjects ⟨orig⟩ (sortByKey (fun rb => rb.1.idnum) bodies)
  let f1 := res.1
  let xstart := f1.tell
  let f2 := f1.write "xref \n".data
  let f3 := (codeSubsections res.2).foldl writeSubsection f2
  let f4 := f3.write "trailer\n".data
  let f5 := f4.write trailerBytes
  let f6 := f5.write ("\nstartxref\n".data ++ natDecimal xstart ++ "\n%%EOF\n".data)
  f6.contents

/-- Everything `crop` consumes, with the document object model provider
(pyPdf) abstracted behind the fields: the three access-negotiation
outcomes, the optional password, the geometry input, the expanded margin
quads, the page references in document order, the provider's serializers
and the parsed trailer, and the raw bytes of the input file. -/
structure CropEnv where
  directReadOk : Bool
  emptyPwReadOk : Bool
  givenPwReadOk : Bool
  password : Option (List Char)
  mode : BBoxMode
  margins : MarginQuad
  altmargins : MarginQuad
  pages : List XRef
  serialize : XRef → List Int → List Char
  trailerSer : List (String × PdfObj) → List Char
  trailer : List (String × PdfObj)
  origBytes : List Char

/-- The observable result of a successful `crop`: the final bytes of the
output file and the trailer dictionary that was serialized into it. -/
structure CropOut where
  file : List Char
  emittedTrailer : List (String × PdfObj)
deriving DecidableEq

/-- src lines 70-144, everything in `crop` after the access-negotiation
block: resolve the rectangles, run the page loop, locate the previous
`startxref` offset (line 107), override `/Prev` in a copy of the trailer
(lines 108-110), and append the new revision.  Messages printed along the
way are collected; a raised exception aborts the rest. -/
def cropRest (env : CropEnv) : List Msg × Except PyErr CropOut :=
  match runBBoxStage env.mode with
  | (bmsgs, Except.error e) => (bmsgs, Except.error e)
  | (bmsgs, Except.ok src) =>
    match cropPagesLoop env.pages src env.margins env.altmargins env.serialize with
    | Except.error e => (bmsgs, Except.error e)
    | Except.ok bodies =>
      match findLastXrefStart env.origBytes with
      | Except.error e => (bmsgs, Except.error e)
      | Except.ok prev =>
        (bmsgs, Except.ok
          ⟨emitRevision env.origBytes bodies
              (env.trailerSer (dictSet "/Prev" (PdfObj.num prev) env.trailer)),
            dictSet "/Prev" (PdfObj.num prev) env.trailer⟩)

/-- src lines 45-144, `crop` as a whole: the access-negotiation block
prints its messages and always falls through into `cropRest`. -/
def cropModel (env : CropEnv) : List Msg × Except PyErr CropOut :=
  (authMsgs env.directReadOk env.emptyPwReadOk env.givenPwReadOk env.password ++
      (cropRest env).1,
    (cropRest env).2)

/-- `env` with the document readable directly, all else unchanged. -/
def readableEnv (env : CropEnv) : CropEnv :=
  ⟨true, env.emptyPwReadOk, env.givenPwReadOk, env.password, env.mode, env.margins,
    env.altmargins, env.pages, env.serialize, env.trailerSer, env.trailer, env.origBytes⟩

/-- src lines 146-148: `main` runs `crop` on each input file in order with
no exception handling, so the first raised error aborts the loop.  The
result records which files were attempted (in order) and the error, if
any, that escaped. -/
def mainAttempted (crp : List Char → Except PyErr Unit) :
    List (List Char) → List (List Char) × Option PyErr
  | [] => ([], none)
  | f :: fs =>
    match crp f with
    | Except.error e => ([f], some e)
    | Except.ok _ =>
      match mainAttempted crp fs with
      | (as, r) => (f :: as, r)

deriving instance DecidableEq for Except

/-- A 1024-byte input whose trailing tokens form a well-formed revision
tail pointing at offset 77. -/
def wOrig : List Char :=
  List.replicate 1006 ' ' ++ "startxref 77 %%EOF".data

/-- An input shorter than 1024 bytes whose trailing tokens nevertheless
form a perfect revision tail pointing at offset 42. -/
def shortTail : List Char :=
  "startxref 42 %%EOF".data

/-- A 1024-byte input whose third-to-last token starts with `startxref`
without being equal to it. -/
def looseTail : List Char :=
  List.replicate 1005 ' ' ++ "startxrefs 42 %%EOF".data

/-- A concrete run of `crop`: the document is unreadable under every
credential and no password was supplied, geometry comes from a fixed
rectangle, and the document has one page and a trailer that already
carries a stale `/Prev`. -/
def envDemo : CropEnv :=
  ⟨false, false, false, none,
    BBoxMode.fixed [10, 20, 300, 400],
    ⟨1, 2, 3, 4⟩, ⟨5, 6, 7, 8⟩,
    [⟨4, 0⟩],
    fun r cb => natDecimal r.idnum ++ (':' :: (natDecimal cb.length)),
    fun tr => '<' :: (natDecimal tr.length ++ ['>']),
    [("/Root", PdfObj.other 1), ("/Prev", PdfObj.num 999)],
    wOrig⟩

/-- The successful output of the `envDemo` run. -/
def outDemo : CropOut :=
  ((cropModel envDemo).2).toOption.getD ⟨[], []⟩

/-- A per-file behavior for `main`: processing fails on the file named `a`
and succeeds on every other file. -/
def cropStub (f : List Char) : Except PyErr Unit :=
  if f = "a".data then Except.error PyErr.gsCallFailed else Except.ok ()

/-! ## Auxiliary lemmas -/

theorem natDecimalAux_zero (fuel : Nat) (acc : List Char) :
    natDecimalAux fuel 0 acc = acc := by
  cases fuel <;> simp [natDecimalAux]

theorem length_le_natDecimalAux (fuel : Nat) :
    ∀ (n : Nat) (acc : List Char), acc.length ≤ (natDecimalAux fuel n acc).length := by
  induction fuel with
  | zero => intro n acc; simp [natDecimalAux]
  | succ fuel ih =>
    intro n acc
    simp only [natDecimalAux]
    split
    · exact Nat.le_refl _
    · exact Nat.le_trans (Nat.le_succ _) (ih (n / 10) (Char.ofNat (48 + n % 10) :: acc))

theorem length_natDecimalAux_le :
    ∀ (fuel n : Nat) (acc : List Char) (k : Nat), n ≤ fuel → n < 10 ^ k →
      (natDecimalAux fuel n acc).length ≤ k + acc.length := by
  intro fuel
  induction fuel with
  | zero =>
    intro n acc k hf hk
    simp [natDecimalAux]
  | succ fuel ih =>
    intro n acc k hf hk
    by_cases h0 : n = 0
    · subst h0
      rw [natDecimalAux_zero]
      omega
    · simp only [natDecimalAux, if_neg h0]
      have hk1 : 1 ≤ k := by
        by_contra hc
        have hk0 : k = 0 := by omega
        subst hk0
        simp at hk
        omega
      by_cases h10 : n < 10
      · have hz : n / 10 = 0 := Nat.div_eq_of_lt h10
        rw [hz, natDecimalAux_zero]
        simp only [List.length_cons]
        omega
      · have hfle : n / 10 ≤ fuel := by
          have := Nat.div_lt_self (by omega : 0 < n) (by omega : 1 < 10)
          omega
        have hpow : 10 ^ (k - 1) * 10 = 10 ^ k := by
          rw [← pow_succ]
          congr 1
          omega
        have hklt : n / 10 < 10 ^ (k - 1) := Nat.div_lt_of_lt_mul (by omega)
        have := ih (n / 10) (Char.ofNat (48 + n % 10) :: acc) (k - 1) hfle hklt
        simp only [List.length_cons] at this
        omega

theorem one_le_length_natDecimal (n : Nat) : 1 ≤ (natDecimal n).length := by
  unfold natDecimal
  split
  · simp
  · rename_i h0
    cases n with
    | zero => exact absurd rfl h0
    | succ m =>
      simp only [natDecimalAux, if_neg h0]
      calc 1 = ([Char.ofNat (48 + (m + 1) % 10)] : List Char).length := by simp
        _ ≤ _ := length_le_natDecimalAux m ((m + 1) / 10) _

theorem length_natDecimal_le (n k : Nat) (hk : 1 ≤ k) (h : n < 10 ^ k) :
    (natDecimal n).length ≤ k := by
  unfold natDecimal
  split
  · simpa using hk
  · have := length_natDecimalAux_le n n [] k (Nat.le_refl n) h
    simpa using this

theorem length_leftPad (c : Char) (w : Nat) (s : List Char) :
    (leftPad c w s).length = max w s.length := by
  simp [leftPad]
  omega

theorem length_xrefLine (off gen : Nat) : (xrefLine off gen).length = 20 := by
  unfold xrefLine
  rw [List.length_take]
  simp only [List.length_append, List.length_cons, length_leftPad]
  have h4 : (" n \n".data).length = 4 := rfl
  have h1 := one_le_length_natDecimal off
  have h2 := one_le_length_natDecimal gen
  omega

theorem xrefLine_of_small (off gen : Nat) (hoff : off < 10 ^ 10) (hgen : gen < 10 ^ 5) :
    xrefLine off gen =
      leftPad '0' 10 (natDecimal off) ++
        (' ' :: leftPad '0' 5 (natDecimal gen)) ++ " n \n".data := by
  unfold xrefLine
  apply List.take_of_length_le
  have h1 := length_natDecimal_le off 10 (by omega) hoff
  have h2 := length_natDecimal_le gen 5 (by omega) hgen
  simp [length_leftPad]
  omega

theorem write_isPre (f : OutFile) (s : List Char) : f.contents <+: (f.write s).contents :=
  ⟨s, rfl⟩

theorem isPre_write_of (a : List Char) (f : OutFile) (s : List Char)
    (h : a <+: f.contents) : a <+: (f.write s).contents :=
  h.trans (write_isPre f s)

theorem foldl_write_isPre {β : Type} (g : OutFile → β → OutFile)
    (hg : ∀ f b, f.contents <+: (g f b).contents) :
    ∀ (l : List β) (f : OutFile), f.contents <+: (List.foldl g f l).contents := by
  intro l
  induction l with
  | nil => intro f; exact ⟨[], by simp⟩
  | cons b bs ih => intro f; exact (hg f b).trans (ih (g f b))

theorem isPre_foldl_of {β : Type} (g : OutFile → β → OutFile)
    (hg : ∀ f b, f.contents <+: (g f b).contents) (a : List Char) (l : List β)
    (f : OutFile) (h : a <+: f.contents) : a <+: (List.foldl g f l).contents :=
  h.trans (foldl_write_isPre g hg l f)

theorem writeObjects_isPre : ∀ (l : List (XRef × List Char)) (f : OutFile),
    f.contents <+: (writeObjects f l).1.contents := by
  intro l
  induction l with
  | nil => intro f; exact ⟨[], by simp [writeObjects]⟩
  | cons rb rest ih =>
    intro f
    simp only [writeObjects]
    exact ((write_isPre f _).trans ((write_isPre _ _).trans (write_isPre _ _))).trans (ih _)

theorem writeSubsection_isPre (f : OutFile) (sub : List (XRef × Nat)) :
    f.contents <+: (writeSubsection f sub).contents := by
  unfold writeSubsection
  exact (write_isPre f _).trans
    (foldl_write_isPre _ (fun g ro => write_isPre g _) sub _)

theorem emitRevision_isPre (orig : List Char) (bodies : List (XRef × List Char))
    (tb : List Char) : orig <+: emitRevision orig bodies tb := by
  unfold emitRevision
  dsimp only
  apply isPre_write_of
  apply isPre_write_of
  apply isPre_write_of
  apply isPre_foldl_of _ writeSubsection_isPre
  apply isPre_write_of
  exact writeObjects_isPre _ ⟨orig⟩

theorem lookup_dictSet_self (k : String) (v : PdfObj) (d : List (String × PdfObj)) :
    List.lookup k (dictSet k v d) = some v := by
  induction d with
  | nil => simp [dictSet, List.lookup]
  | cons p rest ih =>
    obtain ⟨k', v'⟩ := p
    by_cases h : k' = k
    · subst h
      simp [dictSet, List.lookup]
    · have hbeq : (k == k') = false := by
        simp only [beq_eq_false_iff_ne]
        exact fun hc => h hc.symm
      simp only [dictSet, if_neg h, List.lookup, hbeq]
      exact ih

theorem lookup_dictSet_other (k q : String) (v : PdfObj) (d : List (String × PdfObj))
    (h : q ≠ k) : List.lookup q (dictSet k v d) = List.lookup q d := by
  induction d with
  | nil =>
    have hbeq : (q == k) = false := by
      simp only [beq_eq_false_iff_ne]
      exact h
    simp [dictSet, List.lookup, hbeq]
  | cons p rest ih =>
    obtain ⟨k', v'⟩ := p
    by_cases hk : k' = k
    · subst hk
      have hbeq : (q == k') = false := by
        simp only [beq_eq_false_iff_ne]
        exact h
      simp [dictSet, List.lookup, hbeq]
    · simp only [dictSet, if_neg hk, List.lookup]
      cases hqk : q == k' with
      | true => rfl
      | false => exact ih

theorem negIdx_reverse {α : Type} (R : List α) (k : Nat) (hk : 1 ≤ k) :
    negIdx R.reverse k = R.get? (k - 1) := by
  unfold negIdx
  rw [List.length_reverse]
  split
  · rename_i h
    rw [List.get?_eq_getElem?, List.getElem?_reverse (by omega), List.get?_eq_getElem?]
    congr 1
    omega
  · rename_i h
    rw [List.get?_eq_getElem?]
    exact (List.getElem?_eq_none (by omega)).symm

theorem cropRest_ok (env : CropEnv) (out : CropOut)
    (h : (cropRest env).2 = Except.ok out) :
    ∃ bodies prev,
      findLastXrefStart env.origBytes = Except.ok prev ∧
      out.emittedTrailer = dictSet "/Prev" (PdfObj.num prev) env.trailer ∧
      out.file = emitRevision env.origBytes bodies (env.trailerSer out.emittedTrailer) := by
  unfold cropRest at h
  split at h
  · simp at h
  · split at h
    · simp at h
    · rename_i bodies hbodies
      split at h
      · simp at h
      · rename_i prev hprev
        obtain rfl : (⟨emitRevision env.origBytes bodies
            (env.trailerSer (dictSet "/Prev" (PdfObj.num prev) env.trailer)),
            dictSet "/Prev" (PdfObj.num prev) env.trailer⟩ : CropOut) = out := by
          simpa using h
        exact ⟨bodies, prev, hprev, rfl, rfl⟩

theorem cropLoop_repeating (ser : XRef → List Int → List Char) (m am : MarginQuad)
    (a b c d : Int) (t : List Int) :
    ∀ (pages : List XRef) (idx : Nat), ∃ bodies,
      cropLoop ser m am idx pages (fun _ => some (a :: b :: c :: d :: t)) = Except.ok bodies ∧
      bodies.map (fun q => q.1) = pages := by
  intro pages
  induction pages with
  | nil => intro idx; exact ⟨[], rfl, rfl⟩
  | cons p ps ih =>
    intro idx
    obtain ⟨bodies, hb, hmap⟩ := ih (idx + 1)
    simp only [cropLoop, mkCropBox, hb]
    exact ⟨_, rfl, by simp [hmap]⟩

theorem cropLoop_finite (ser : XRef → List Int → List Char) (m am : MarginQuad)
    (L : List (List Int)) (hL : ∀ b ∈ L, 4 ≤ b.length) :
    ∀ (pages : List XRef) (idx : Nat), L.length - idx ≤ pages.length →
      ∃ bodies,
        cropLoop ser m am idx pages (fun i => L.get? i) = Except.ok bodies ∧
        bodies.map (fun q => q.1) = pages.take (L.length - idx) := by
  intro pages
  induction pages with
  | nil =>
    intro idx hlen
    simp only [List.length_nil] at hlen
    have h0 : L.length - idx = 0 := by omega
    rw [h0]
    exact ⟨[], rfl, rfl⟩
  | cons p ps ih =>
    intro idx hlen
    simp only [List.length_cons] at hlen
    cases hget : L.get? idx with
    | none =>
      rw [List.get?_eq_getElem?, List.getElem?_eq_none_iff] at hget
      have h0 : L.length - idx = 0 := by omega
      rw [h0]
      refine ⟨[], ?_, rfl⟩
      have hget2 : L.get? idx = none := by
        rw [List.get?_eq_getElem?, List.getElem?_eq_none_iff]
        exact hget
      simp only [cropLoop, hget2]
    | some bb =>
      have hidx : idx < L.length := by
        rcases List.get?_eq_some.mp hget with ⟨hlt, _⟩
        exact hlt
      have hmem : bb ∈ L := List.get?_mem hget
      have hblen : 4 ≤ bb.length := hL bb hmem
      obtain ⟨bodies, hb, hmap⟩ := ih (idx + 1) (by omega)
      have hcount : L.length - idx = (L.length - (idx + 1)) + 1 := by omega
      rcases bb with _ | ⟨b1, _ | ⟨b2, _ | ⟨b3, _ | ⟨b4, bt⟩⟩⟩⟩ <;>
        simp only [List.length_nil, List.length_cons] at hblen
      · omega
      · omega
      · omega
      · omega
      · simp only [cropLoop, hget, mkCropBox, hb]
        refine ⟨_, rfl, ?_⟩
        rw [hcount, List.take_succ_cons]
        simp [hmap]

/-! ## Claim theorems -/

/-- Claim C1 (code bug).  The xref subsection grouping of src lines 129-134
does NOT fold consecutive ids into runs: its condition compares the last
entry's id with the incoming id for equality (`subsections[-1][-1].idnum !=
ref.idnum`), which never holds for the distinct ids of distinct objects, so
the extend branch is dead and every id yields a singleton subsection.  On
the touched set {3,4,5,9,10,14} the code produces six singletons, while the
grouping the claim (and the emitted `<start_id> <count>` header format)
requires — extend a run exactly when the id is one greater than the run's
last id — yields [[3,4,5],[9,10],[14]], [[7]] for {7}, and [] for {}. -/
theorem subsection_grouping_on_example :
    codeSubsections
        [(⟨3, 0⟩, 0), (⟨4, 0⟩, 0), (⟨5, 0⟩, 0), (⟨9, 0⟩, 0), (⟨10, 0⟩, 0), (⟨14, 0⟩, 0)] =
      [[(⟨3, 0⟩, 0)], [(⟨4, 0⟩, 0)], [(⟨5, 0⟩, 0)], [(⟨9, 0⟩, 0)], [(⟨10, 0⟩, 0)],
        [(⟨14, 0⟩, 0)]] ∧
    specSubsections [3, 4, 5, 9, 10, 14] = [[3, 4, 5], [9, 10], [14]] ∧
    specSubsections [7] = [[7]] ∧
    specSubsections [] = [] ∧
    (codeSubsections
        [(⟨3, 0⟩, 0), (⟨4, 0⟩, 0), (⟨5, 0⟩, 0), (⟨9, 0⟩, 0), (⟨10, 0⟩, 0),
          (⟨14, 0⟩, 0)]).map (fun sub => sub.map (fun ro => ro.1.idnum)) ≠
      specSubsections [3, 4, 5, 9, 10, 14] := by
  decide

/-- Claim C2 (confirmed).  For every rectangle `(x1,y1,x2,y2)`, 0-based page
index and margin policy (the alternate quad defaulting to the primary when
absent, src lines 188-191), the computed crop rectangle is
`(x1-left, y1-bottom, x2+right, y2+top)` using the alternate quad when the
index is even (including index 0) and the primary quad when it is odd
(src lines 98-103). -/
theorem crop_margin_policy (x1 y1 x2 y2 : Int) (idx : Nat)
    (p : MarginQuad) (a : Option MarginQuad) :
    (idx % 2 = 0 →
      cropBoxFor [x1, y1, x2, y2] idx p (resolveAltMargins p a) =
        Except.ok [x1 - (a.getD p).left, y1 - (a.getD p).bottom,
          x2 + (a.getD p).right, y2 + (a.getD p).top]) ∧
    (idx % 2 = 1 →
      cropBoxFor [x1, y1, x2, y2] idx p (resolveAltMargins p a) =
        Except.ok [x1 - p.left, y1 - p.bottom, x2 + p.right, y2 + p.top]) := by
  constructor
  · intro h
    simp [cropBoxFor, mkCropBox, resolveAltMargins, h]
  · intro h
    simp [cropBoxFor, mkCropBox, resolveAltMargins, h]

/-- Witness for C2, the vectors of spec section 8: page 0 uses the alternate
quad (0,0,0,0), page 1 the primary quad (5,5,5,5). -/
theorem crop_margin_policy_witness :
    cropBoxFor [100, 100, 500, 700] 0 ⟨5, 5, 5, 5⟩
        (resolveAltMargins ⟨5, 5, 5, 5⟩ (some ⟨0, 0, 0, 0⟩)) =
      Except.ok [100, 100, 500, 700] ∧
    cropBoxFor [100, 100, 500, 700] 1 ⟨5, 5, 5, 5⟩
        (resolveAltMargins ⟨5, 5, 5, 5⟩ (some ⟨0, 0, 0, 0⟩)) =
      Except.ok [95, 95, 505, 705] := by
  constructor
  · have h := (crop_margin_policy 100 100 500 700 0 ⟨5, 5, 5, 5⟩ (some ⟨0, 0, 0, 0⟩)).1 rfl
    simpa using h
  · have h := (crop_margin_policy 100 100 500 700 1 ⟨5, 5, 5, 5⟩ (some ⟨0, 0, 0, 0⟩)).2 rfl
    simpa using h

/-- Counterexample to claim C3 as stated.  On a well-formed tail shorter
than 1024 bytes the code fails at `seek(-1024, 2)` with an I/O error
instead of reading from `max(0, length-1024)` and returning the offset; and
on a tail whose third-to-last token is `startxrefs` — which starts with but
does not equal `startxref` — the code returns the offset where the claimed
equality test would fail with `MalformedDocument`. -/
theorem locator_claim_cex :
    (findLastXrefStart shortTail = Except.error PyErr.ioError ∧
      findLastXrefStartClaim shortTail = Except.ok 42) ∧
    (findLastXrefStart looseTail = Except.ok 42 ∧
      findLastXrefStartClaim looseTail = Except.error PyErr.malformedDocument) := by
  decide

/-- Claim C3 (corrected).  The locator behaves as the amended description
says: streams shorter than 1024 bytes fail at the seek with an I/O error;
otherwise the final 1024 bytes are split on whitespace, fewer than three
tokens is an indexing error, a third-to-last token that does not START with
`startxref` is `MalformedDocument`, and otherwise the second-to-last token
is parsed as an integer (failing with a `ValueError` when non-numeric). -/
theorem locator_description (s : List Char) :
    findLastXrefStart s = findLastXrefStartAmended s := by
  unfold findLastXrefStart findLastXrefStartAmended
  split
  · rfl
  · have hL : pySplit (s.drop (s.length - 1024)) =
        (pySplit (s.drop (s.length - 1024))).reverse.reverse := by
      rw [List.reverse_reverse]
    generalize hR : (pySplit (s.drop (s.length - 1024))).reverse = R at hL ⊢
    rw [hL]
    dsimp only
    rw [negIdx_reverse R 3 (by omega), negIdx_reverse R 2 (by omega)]
    rcases R with _ | ⟨a, _ | ⟨b, _ | ⟨c, rest⟩⟩⟩ <;> simp

/-- Counterexample to claim C4 as stated.  With a per-file behavior that
fails on the file `a`, running `main` on the list `[a, b]` never attempts
`b`: the error escapes the bare loop of src lines 146-148. -/
theorem per_file_error_aborts_cex :
    mainAttempted cropStub ["a".data, "b".data] = (["a".data], some PyErr.gsCallFailed) ∧
    "b".data ∉ (mainAttempted cropStub ["a".data, "b".data]).1 := by
  decide

/-- Claim C4 (corrected).  `main` has no per-file error boundary: files
before the failing one are processed, the failing file's error propagates,
and every file after it is left unattempted. -/
theorem per_file_error_aborts (crp : List Char → Except PyErr Unit)
    (pre : List (List Char)) (f : List Char) (post : List (List Char)) (e : PyErr)
    (hpre : ∀ g ∈ pre, crp g = Except.ok ()) (hf : crp f = Except.error e) :
    mainAttempted crp (pre ++ f :: post) = (pre ++ [f], some e) := by
  induction pre with
  | nil => simp [mainAttempted, hf]
  | cons g gs ih =>
    have hg : crp g = Except.ok () := hpre g (by simp)
    have ih2 := ih (fun x hx => hpre x (by simp [hx]))
    simp [mainAttempted, hg, ih2]

/-- Witness for C4: files `x` (succeeds), `a` (fails), `b` (never run). -/
theorem per_file_error_aborts_witness :
    mainAttempted cropStub ["x".data, "a".data, "b".data] =
      (["x".data, "a".data], some PyErr.gsCallFailed) := by
  have h := per_file_error_aborts cropStub ["x".data] "a".data ["b".data]
    PyErr.gsCallFailed (by decide) (by decide)
  simpa using h

/-- Counterexample to claim C5 as stated.  In a run where every credential
attempt fails and no password was supplied, `crop` merely prints the
"Try --password" message and continues: the run completes successfully and
a new revision (with its `/Prev`-bearing trailer) is still produced, so the
failure is neither an `AccessDenied` exception nor terminal for the file. -/
theorem auth_failure_not_terminal_cex :
    (cropModel envDemo).1 = [Msg.openErrorTryPassword] ∧
    (cropModel envDemo).2 = Except.ok outDemo ∧
    outDemo.emittedTrailer = dictSet "/Prev" (PdfObj.num 77) envDemo.trailer := by
  refine ⟨by decide, rfl, by decide⟩

/-- Claim C5 (corrected).  When the direct read, the empty-password
decryption and (when a password is supplied) the password decryption all
fail, `crop` prints the appropriate diagnostic — suggesting `--password`
when none was given — and continues exactly as it would for a readable
document: the rest of the run, including any appended revision, is
untouched by the failure. -/
theorem auth_failure_continues (env : CropEnv)
    (h1 : env.directReadOk = false) (h2 : env.emptyPwReadOk = false)
    (h3 : env.givenPwReadOk = false) :
    (cropModel env).1 =
      (match env.password with
        | none => Msg.openErrorTryPassword
        | some _ => Msg.decryptGivenPasswordError) :: (cropModel (readableEnv env)).1 ∧
    (cropModel env).2 = (cropModel (readableEnv env)).2 := by
  have hre : cropRest (readableEnv env) = cropRest env := rfl
  constructor
  · unfold cropModel
    rw [hre]
    simp only [readableEnv]
    rw [h1, h2, h3]
    cases env.password <;> simp [authMsgs]
  · unfold cropModel
    rw [hre]

/-- Witness for C5's corrected statement at the concrete `envDemo` run. -/
theorem auth_failure_continues_witness :
    (cropModel envDemo).1 =
      Msg.openErrorTryPassword :: (cropModel (readableEnv envDemo)).1 ∧
    (cropModel envDemo).2 = (cropModel (readableEnv envDemo)).2 := by
  have h := auth_failure_continues envDemo rfl rfl rfl
  simpa [envDemo] using h

/-- Counterexample to claim C6 as stated.  For an offset of 10^10 (an
eleven-digit number) the emitted entry line is still exactly 20 bytes —
the `[:20]` slice enforces that — but it contains no newline at all: the
line terminator has been truncated away, so the line does not consist of a
10-digit offset field followed by the terminator. -/
theorem xref_line_overflow_cex :
    (xrefLine 10000000000 0).length = 20 ∧ '\n' ∉ xrefLine 10000000000 0 := by
  decide

/-- Claim C6 (corrected).  Every emitted xref entry line is exactly 20
bytes; and whenever the offset is below 10^10 and the generation below
10^5 — so that both zero-padded fields fit their widths — the line is the
10-digit offset, a space, the 5-digit generation, a space, the in-use
marker `n`, and the two-byte terminator, exactly as the claim describes.
Larger values overflow their field and the line is cut at 20 bytes,
losing the terminator. -/
theorem xref_line_format (off gen : Nat) :
    (xrefLine off gen).length = 20 ∧
    (off < 10 ^ 10 → gen < 10 ^ 5 →
      xrefLine off gen =
        leftPad '0' 10 (natDecimal off) ++
          (' ' :: leftPad '0' 5 (natDecimal gen)) ++ " n \n".data) :=
  ⟨length_xrefLine off gen, fun hoff hgen => xrefLine_of_small off gen hoff hgen⟩

/-- Witness for C6 at offset 500, generation 3. -/
theorem xref_line_format_witness :
    (xrefLine 500 3).length = 20 ∧
    xrefLine 500 3 = "0000000500 00003 n \n".data := by
  have h := xref_line_format 500 3
  refine ⟨h.1, ?_⟩
  rw [h.2 (by norm_num) (by norm_num)]
  decide

/-- Claim C7 (confirmed).  In every successful run, the trailer emitted
with the new revision carries `/Prev` equal to exactly the offset the
Revision-Tail Locator found for this run's input bytes — overriding any
`/Prev` already present — and leaves every other trailer key unchanged
(src lines 106-110 and 142-143). -/
theorem trailer_prev_pointer (env : CropEnv) (out : CropOut) (off : Int)
    (h : (cropModel env).2 = Except.ok out)
    (hf : findLastXrefStart env.origBytes = Except.ok off) :
    List.lookup "/Prev" out.emittedTrailer = some (PdfObj.num off) ∧
    ∀ k, k ≠ "/Prev" → List.lookup k out.emittedTrailer = List.lookup k env.trailer := by
  obtain ⟨bodies, prev, hprev, htr, _⟩ := cropRest_ok env out h
  rw [hprev] at hf
  obtain rfl : prev = off := by injection hf
  rw [htr]
  exact ⟨lookup_dictSet_self _ _ _, fun k hk => lookup_dictSet_other _ _ _ _ hk⟩

/-- Witness for C7: the `envDemo` run finds offset 77, overrides the stale
`/Prev` of 999, and preserves `/Root`. -/
theorem trailer_prev_pointer_witness :
    List.lookup "/Prev" outDemo.emittedTrailer = some (PdfObj.num 77) ∧
    List.lookup "/Root" outDemo.emittedTrailer = List.lookup "/Root" envDemo.trailer := by
  have h := trailer_prev_pointer envDemo outDemo 77 rfl (by decide)
  exact ⟨h.1, h.2 "/Root" (by decide)⟩

/-- Claim C8 (confirmed).  In live-detection mode a non-zero exit status of
the external geometry process fails the operation (src lines 77-78); a zero
exit status whose diagnostic output parses to zero rectangles also fails,
after printing the raw diagnostic output for inspection (src lines 84-87):
an empty rectangle list is never treated as zero pages to crop. -/
theorem live_detection_failure (rc : Int) (txt : List Char) :
    (rc ≠ 0 → runBBoxStage (BBoxMode.live rc txt) = ([], Except.error PyErr.gsCallFailed)) ∧
    (rc = 0 → parseBBoxLines txt = Except.ok [] →
      runBBoxStage (BBoxMode.live rc txt) =
        ([Msg.noBBoxDump txt], Except.error PyErr.gsCallFailed)) := by
  constructor
  · intro h
    simp [runBBoxStage, h]
  · intro h0 hp
    subst h0
    simp [runBBoxStage, bboxesFromText, hp]

/-- Witness for C8: exit status 1, and exit status 0 with box-free output. -/
theorem live_detection_failure_witness :
    runBBoxStage (BBoxMode.live 1 "oops".data) = ([], Except.error PyErr.gsCallFailed) ∧
    runBBoxStage (BBoxMode.live 0 "no boxes here".data) =
      ([Msg.noBBoxDump "no boxes here".data], Except.error PyErr.gsCallFailed) := by
  constructor
  · exact (live_detection_failure 1 "oops".data).1 (by decide)
  · exact (live_detection_failure 0 "no boxes here".data).2 rfl (by decide)

/-- Claim C9 (confirmed).  Every successful run produces output whose bytes
start with a byte-identical copy of the original input: the writer opens
the sink in append mode on an exact copy of the input (src lines 112-118)
and only ever appends, so the original content is a prefix of the result
whether writing in place or to a separate output path. -/
theorem output_prefix_preservation (env : CropEnv) (out : CropOut)
    (h : (cropModel env).2 = Except.ok out) :
    env.origBytes <+: out.file := by
  obtain ⟨bodies, prev, _, _, hfile⟩ := cropRest_ok env out h
  rw [hfile]
  exact emitRevision_isPre _ _ _

/-- Witness for C9 at the concrete `envDemo` run. -/
theorem output_prefix_preservation_witness :
    envDemo.origBytes <+: outDemo.file :=
  output_prefix_preservation envDemo outDemo rfl

/-- Claim C10 (confirmed).  The rectangle sequence is consumed by pairing
it against the page sequence (src line 93): with the repeating source every
page receives a rectangle and exactly as many rectangles as pages are
used; with a finite source shorter than the page list only the first pages
— one per rectangle — are given a crop box, and the remaining pages are
silently skipped with no error raised. -/
theorem rect_consumption (pages : List XRef) (m am : MarginQuad)
    (ser : XRef → List Int → List Char)
    (a b c d : Int) (t : List Int)
    (l : List (List Int)) (hl : ∀ bb ∈ l, 4 ≤ bb.length)
    (hlen : l.length ≤ pages.length) :
    (∃ bodies,
      cropPagesLoop pages (BBoxSrc.repeating (a :: b :: c :: d :: t)) m am ser =
        Except.ok bodies ∧
      bodies.map (fun q => q.1) = pages) ∧
    (∃ bodies,
      cropPagesLoop pages (BBoxSrc.finite l) m am ser = Except.ok bodies ∧
      bodies.map (fun q => q.1) = pages.take l.length) := by
  constructor
  · exact cropLoop_repeating ser m am a b c d t pages 0
  · have h := cropLoop_finite ser m am l hl pages 0 (by omega)
    rw [Nat.sub_zero] at h
    exact h

/-- Witness for C10: two pages against a repeating rectangle, and two pages
against a single finite rectangle (the second page untouched). -/
theorem rect_consumption_witness :
    (∃ bodies,
      cropPagesLoop [⟨1, 0⟩, ⟨2, 0⟩] (BBoxSrc.repeating [0, 0, 10, 10])
          ⟨0, 0, 0, 0⟩ ⟨0, 0, 0, 0⟩ (fun _ _ => []) = Except.ok bodies ∧
      bodies.map (fun q => q.1) = [⟨1, 0⟩, ⟨2, 0⟩]) ∧
    (∃ bodies,
      cropPagesLoop [⟨1, 0⟩, ⟨2, 0⟩] (BBoxSrc.finite [[0, 0, 10, 10]])
          ⟨0, 0, 0, 0⟩ ⟨0, 0, 0, 0⟩ (fun _ _ => []) = Except.ok bodies ∧
      bodies.map (fun q => q.1) = [⟨1, 0⟩]) := by
  have h := rect_consumption [⟨1, 0⟩, ⟨2, 0⟩] ⟨0, 0, 0, 0⟩ ⟨0, 0, 0, 0⟩ (fun _ _ => [])
    0 0 10 10 [] [[0, 0, 10, 10]] (by decide) (by decide)
  simpa using h
